import Mathlib

/-
  Shallow embedding of the irc_daemon sources (src/client.rs, src/irc.rs,
  src/irc/error.rs).

  The files buffer.rs (MessageBuffer), parser.rs (ParsedMsg) and
  irc/rfc_defs.rs (MAX_MSG_SIZE) are referenced by the sources but are not
  part of the repository snapshot; those parts are modelled from the
  specification and marked as such in their doc comments.

  Modelling conventions:
  - HashMap and Vec become association lists and lists; Arc and Mutex
    wrappers disappear (single-threaded view of one poll step).
  - The TcpStream socket is modelled by explicit lists of poll outcomes
    (WriteEv, ReadEv) consumed by try_flush and try_read.
  - The futures Task wake handle is modelled by a task id (handler) plus a
    counter of notify calls (notifications) on the client.
  - Bytes are modelled as Char; strings are their character lists.
  - A Rust panic (explicit panic, unwrap on None, out-of-bounds index) and
    the non-exhaustive match in handle_command are modelled as none.
  - The connection task and the registry both hold the same Arc of the
    subject client; the embedding passes the subject client separately
    from the clients table.  The subject entry inside the table is never
    read or written by a poll step except for its removal, so the two
    copies cannot be observed to diverge within one step.
-/

namespace IrcDaemon

/-- Modelled from the spec: rfc_defs MAX_MSG_SIZE is the RFC 1459 maximum
message size of 512 bytes; the file src/irc/rfc_defs.rs is not in the
snapshot. -/
def MAX_MSG_SIZE : Nat := 512

/-- Modelled from the spec: has_delim of MessageBuffer (buffer.rs is not in
the snapshot) is true iff a CR-LF subsequence exists in the buffered
bytes. -/
def hasDelim : List Char → Bool
  | [] => false
  | [_] => false
  | a :: b :: rest => if a = '\r' ∧ b = '\n' then true else hasDelim (b :: rest)

/-- Modelled from the spec: the split of the buffered bytes at the first
CR-LF, used by extract_ln of MessageBuffer; the first component is the
line before the CR-LF, the second the bytes after it.  Without a CR-LF
the whole content is returned as the line (extract_ln is only invoked
under the has_delim precondition). -/
def splitCRLF : List Char → List Char × List Char
  | [] => ([], [])
  | [c] => ([c], [])
  | a :: b :: rest =>
    if a = '\r' ∧ b = '\n' then ([], rest)
    else ((a :: (splitCRLF (b :: rest)).1), (splitCRLF (b :: rest)).2)

/-- Modelled from the spec: MessageBuffer, a fixed-capacity byte buffer;
data holds the first index bytes, so index equals the length of data. -/
structure MessageBuffer where
  data : List Char
deriving DecidableEq

/-- Modelled from the spec: the write index of the buffer. -/
def MessageBuffer.index (b : MessageBuffer) : Nat := b.data.length

/-- Modelled from the spec: append_bytes copies bytes at the write index
and fails (FullError, modelled as none) if index + len exceeds the
capacity. -/
def MessageBuffer.append_bytes (b : MessageBuffer) (src : List Char) : Option MessageBuffer :=
  if b.data.length + src.length > MAX_MSG_SIZE then none else some ⟨b.data ++ src⟩

/-- Modelled from the spec: append_str is the string variant of
append_bytes. -/
def MessageBuffer.append_str (b : MessageBuffer) (s : List Char) : Option MessageBuffer :=
  b.append_bytes s

/-- Modelled from the spec: has_delim on the buffer. -/
def MessageBuffer.has_delim (b : MessageBuffer) : Bool := hasDelim b.data

/-- Modelled from the spec: extract_ln copies the bytes before the first
CR-LF, shifts the bytes after the CR-LF to the start and decrements the
index accordingly. -/
def MessageBuffer.extract_ln (b : MessageBuffer) : List Char × MessageBuffer :=
  ((splitCRLF b.data).1, ⟨(splitCRLF b.data).2⟩)

/-- Modelled from the spec: copy places the buffered contents into a
caller-provided scratch array of MAX_MSG_SIZE bytes and returns the bytes
copied; it does not modify the buffer. -/
def MessageBuffer.copy (b : MessageBuffer) : List Char := b.data.take MAX_MSG_SIZE

/-- Modelled from the spec: shift_bytes_to_start removes the first n bytes,
sliding the remainder down. -/
def MessageBuffer.shift_bytes_to_start (b : MessageBuffer) (n : Nat) : MessageBuffer :=
  ⟨b.data.drop n⟩

/-- Host from src/irc.rs; IpAddr is modelled by its string rendering. -/
inductive Host where
  | Hostname (s : String)
  | HostAddr (a : String)
deriving DecidableEq

/-- UserFlags from src/irc.rs. -/
structure UserFlags where
  registered : Bool
deriving DecidableEq

/-- User from src/irc.rs; ids are modelled as Nat (no id arithmetic ever
overflows in the embedded code). -/
structure User where
  id : Nat
  nick : String
  username : String
  real_name : String
  host : Host
  channel_list : List String
  flags : UserFlags
deriving DecidableEq

/-- ProtoUser from src/irc.rs. -/
structure ProtoUser where
  nick : Option String
  username : Option String
  real_name : Option String
deriving DecidableEq

/-- ServerUserFlags from src/irc.rs. -/
structure ServerUserFlags where
  server_op : Bool
deriving DecidableEq

/-- ServerUser from src/irc.rs. -/
structure ServerUser where
  nick : String
  flags : ServerUserFlags
deriving DecidableEq

/-- Server from src/irc.rs. -/
structure Server where
  id : Nat
  host : Host
  users : List ServerUser
  client_id : Nat
deriving DecidableEq

/-- ChanUserFlags from src/irc.rs. -/
structure ChanUserFlags where
  chan_op : Bool
  chan_halfop : Bool
  chan_voice : Bool
deriving DecidableEq

/-- ChanUser from src/irc.rs. -/
structure ChanUser where
  nick : String
  flags : ChanUserFlags
deriving DecidableEq

/-- Channel from src/irc.rs. -/
structure Channel where
  name : String
  users : List ChanUser
  topic : String
deriving DecidableEq

/-- Command from src/irc.rs (the u64 of the User variant is modelled as
Nat). -/
inductive Command where
  | Join (chans : List String)
  | Part (chans : List String) (msg : Option String)
  | Message (dest : List String) (content : String)
  | Nick (n : String)
  | User (u : String) (mode : Nat) (real : String)
  | Quit (msg : Option String)
deriving DecidableEq

/-- Error from src/irc/error.rs (only the variants that are not commented
out in the source). -/
inductive Error where
  | NoSuchNick (n : Nat) (txt : String)
  | NoRecipient (n : Nat) (txt : String)
  | NoTextToSend (n : Nat) (txt : String)
  | UnknownCommand (n : Nat) (txt : String)
  | NicknameInUse (n : Nat) (txt : String)
  | NotRegistered (n : Nat) (txt : String)
  | NeedMoreParams (n : Nat) (txt : String)
  | AlreadyRegistred (n : Nat) (txt : String)
deriving DecidableEq

/-- ERR_NOSUCHNICK from src/irc/error.rs. -/
def ERR_NOSUCHNICK : Error := Error.NoSuchNick 401 "<nickname> :No such nick/channel"

/-- ERR_NORECIPIENT from src/irc/error.rs. -/
def ERR_NORECIPIENT : Error := Error.NoRecipient 411 ":No recipient given (<command>)"

/-- ERR_NOTEXTTOSEND from src/irc/error.rs. -/
def ERR_NOTEXTTOSEND : Error := Error.NoTextToSend 412 ":No text to send"

/-- ERR_UNKNOWNCOMMAND from src/irc/error.rs; the constant is never
referenced by any handler in the sources. -/
def ERR_UNKNOWNCOMMAND : Error := Error.UnknownCommand 421 "<command> :Unknown command"

/-- ERR_NICKNAMEINUSE from src/irc/error.rs; the constant is never
referenced by any handler in the sources. -/
def ERR_NICKNAMEINUSE : Error := Error.NicknameInUse 433 "<nick> :Nickname is already in use"

/-- ERR_NOTREGISTERED from src/irc/error.rs. -/
def ERR_NOTREGISTERED : Error := Error.NotRegistered 451 ":You have not registered"

/-- ERR_NEEDMOREPARAMS from src/irc/error.rs. -/
def ERR_NEEDMOREPARAMS : Error := Error.NeedMoreParams 461 "<command> :Not enough parameters"

/-- ERR_ALREADYREGISTRED from src/irc/error.rs. -/
def ERR_ALREADYREGISTRED : Error := Error.AlreadyRegistred 462 ":You may not reregister"

/-- Modelled from the spec: ParsedMsg produced by parser.rs, which is not
in the snapshot.  The spec lists the fields as an optional origin, the
command string, optional parameters and an optional trailing part; only
the command and the parameters are consumed by the embedded handlers, so
the other two fields are omitted here. -/
structure ParsedMsg where
  command : String
  opt_params : Option (List String)
deriving DecidableEq

/-- ClientType from src/client.rs, extended with the ProtoUser variant that
src/irc.rs matches on (the client.rs enum declaration lacks it; the spec
treats this as a drafting artifact).  The Unknown variant is called
Unregistered in src/irc.rs. -/
inductive ClientType where
  | Unknown
  | ProtoUser (p : IrcDaemon.ProtoUser)
  | User (u : IrcDaemon.User)
  | Server (s : IrcDaemon.Server)
deriving DecidableEq

/-- Client from src/client.rs.  The socket field is modelled externally by
the event lists fed to try_flush and try_read; the handler Task is
modelled by a task id together with a counter of notify calls. -/
structure Client where
  client_type : ClientType
  id : Nat
  input : MessageBuffer
  output : MessageBuffer
  handler : Nat
  notifications : Nat
  dead : Bool
deriving DecidableEq

/-- Client send_line from src/client.rs lines 257-264: build the line plus
CR-LF, notify the wake handle, then append to output and mark the client
dead if the append fails. -/
def Client.send_line (c : Client) (buf : List Char) : Client :=
  let string := buf ++ ['\r', '\n']
  let c1 := { c with notifications := c.notifications + 1 }
  match c1.output.append_str string with
  | some b => { c1 with output := b }
  | none => { c1 with dead := true }

/-- ClientList from src/client.rs. -/
structure ClientList where
  map : List (Nat × Client)
  next_id : Nat
deriving DecidableEq

/-- Core from src/irc.rs: the registry tables (each an Arc of a Mutex of a
HashMap in the source, modelled as association lists). -/
structure Core where
  clients : ClientList
  nicks : List (String × Nat)
  users : List (Nat × User)
  channels : List (String × Channel)
  servers : List (Nat × Server)
  commands : List (String × Command)
deriving DecidableEq

/-- ClientFuture unlink_client from src/client.rs lines 55-63: remove the
client id from the clients table; a missing entry raises a panic in the
source, modelled as none. -/
def unlink_client (core : Core) (client : Client) : Option Core :=
  match core.clients.map.lookup client.id with
  | none => none
  | some _ =>
      some { core with clients :=
        { core.clients with map := core.clients.map.filter (fun p => p.1 != client.id) } }

/-- Outcome of one poll_write call on the socket. -/
inductive WriteEv where
  | ready (n : Nat)
  | notReady
  | err
deriving DecidableEq

/-- The write loop of try_flush: while write_count < len, poll_write the
remaining slice; Ready n adds n to write_count, NotReady breaks, Err
aborts the flush (none).  An exhausted event list behaves like
NotReady. -/
def flushLoop (evs : List WriteEv) (len wc : Nat) : Option Nat :=
  match evs with
  | [] => some wc
  | e :: rest =>
    if wc < len then
      match e with
      | WriteEv.ready n => flushLoop rest len (wc + n)
      | WriteEv.notReady => some wc
      | WriteEv.err => none
    else some wc

/-- ClientFuture try_flush from src/client.rs lines 66-98: copy the output
into a scratch buffer, write until NotReady or all bytes are gone, then
either reset the index (fully drained) or shift the written bytes off the
front.  A socket error propagates as none. -/
def try_flush (evs : List WriteEv) (client : Client) : Option (Client × Nat) :=
  let len := (client.output.copy).length
  match flushLoop evs len 0 with
  | none => none
  | some write_count =>
    if write_count > 0 then
      if write_count = client.output.index then
        some ({ client with output := ⟨[]⟩ }, write_count)
      else
        some ({ client with output := client.output.shift_bytes_to_start write_count }, write_count)
    else
      some (client, write_count)

/-- Outcome of one poll_read call on the socket; ready [] is a zero-length
read, meaning EOF. -/
inductive ReadEv where
  | ready (bytes : List Char)
  | notReady
  | err
deriving DecidableEq

/-- Result of the read loop of try_read. -/
inductive ReadRes where
  | eof
  | sockErr
  | ok (bytes : List Char)
deriving DecidableEq

/-- The read loop of try_read: while the scratch buffer is not full,
poll_read; a zero-length read is EOF, Ready bs accumulates, NotReady
breaks, Err aborts.  An exhausted event list behaves like NotReady. -/
def readLoop (evs : List ReadEv) (acc : List Char) : ReadRes :=
  match evs with
  | [] => ReadRes.ok acc
  | e :: rest =>
    if acc.length < MAX_MSG_SIZE then
      match e with
      | ReadEv.ready bs => if bs.length = 0 then ReadRes.eof else readLoop rest (acc ++ bs)
      | ReadEv.notReady => ReadRes.ok acc
      | ReadEv.err => ReadRes.sockErr
    else ReadRes.ok acc

/-- Result of try_read: ok carries the updated client and the byte count,
err carries the client unchanged (the source returns the Error and leaves
the client untouched). -/
inductive TryReadRes where
  | ok (c : Client) (n : Nat)
  | err (c : Client)
deriving DecidableEq

/-- ClientFuture try_read from src/client.rs lines 100-127: read into the
scratch region until NotReady or the scratch fills; EOF and socket errors
return Err without touching the client; read bytes are appended to input,
and an append overflow propagates as Err through the question mark
operator (again without touching the client). -/
def try_read (evs : List ReadEv) (client : Client) : TryReadRes :=
  match readLoop evs [] with
  | ReadRes.eof => TryReadRes.err client
  | ReadRes.sockErr => TryReadRes.err client
  | ReadRes.ok bytes =>
    if bytes.length > 0 then
      match client.input.append_bytes bytes with
      | some b => TryReadRes.ok { client with input := b } bytes.length
      | none => TryReadRes.err client
    else TryReadRes.ok client 0

/-- ClientFuture broadcast from src/client.rs lines 130-145: send the line
to every client in the map whose id differs from the id of the caller. -/
def broadcast (selfId : Nat) (map : List (Nat × Client)) (msg : List Char) : List (Nat × Client) :=
  map.map (fun p => if p.1 = selfId then p else (p.1, p.2.send_line msg))

/-- The body of the message loop of ClientFuture poll, src/client.rs lines
181-186: while the input buffer has a CR-LF, extract the line and
broadcast it to the client map.  The while loop is embedded with an
explicit iteration bound so that it stays structurally recursive; each
extraction removes at least the two delimiter bytes, so a bound of the
buffer length can never be exhausted (dispatchLoop below applies that
bound). -/
def dispatchLoopF (fuel : Nat) (selfId : Nat) (map : List (Nat × Client))
    (input : MessageBuffer) : MessageBuffer × List (Nat × Client) :=
  match fuel with
  | 0 => (input, map)
  | fuel2 + 1 =>
    if input.has_delim = true then
      dispatchLoopF fuel2 selfId (broadcast selfId map (input.extract_ln).1) (input.extract_ln).2
    else (input, map)

/-- The message loop of ClientFuture poll with its sufficient iteration
bound. -/
def dispatchLoop (selfId : Nat) (map : List (Nat × Client)) (input : MessageBuffer) :
    MessageBuffer × List (Nat × Client) :=
  dispatchLoopF input.data.length selfId map input

/-- Spec-side restatement used to describe the message loop: the list of
lines the loop extracts, in order, together with the delimiter-free
leftover bytes. -/
def extractLines (data : List Char) : List (List Char) × List Char :=
  if h : hasDelim data = true then
    ((splitCRLF data).1 :: (extractLines (splitCRLF data).2).1,
      (extractLines (splitCRLF data).2).2)
  else ([], data)
termination_by data.length
decreasing_by
  have key : ∀ l : List Char, hasDelim l = true → (splitCRLF l).2.length + 2 ≤ l.length := by
    intro l
    induction l with
    | nil => intro hx; simp [hasDelim] at hx
    | cons a rest ih =>
      cases rest with
      | nil => intro hx; simp [hasDelim] at hx
      | cons b rest2 =>
        intro hx
        by_cases hc : a = '\r' ∧ b = '\n'
        · simp [splitCRLF, hc]
        · have h2 : hasDelim (b :: rest2) = true := by
            simpa [hasDelim, hc] using hx
          have h3 := ih h2
          simp only [splitCRLF, if_neg hc]
          simp only [List.length_cons] at h3 ⊢
          omega
  have h4 := key data h
  omega

/-- The state a ClientFuture closes over: the irc_core clone, the client
behind its Arc, and the first_poll flag. -/
structure PollState where
  core : Core
  client : Client
  first_poll : Bool
deriving DecidableEq

/-- The value of Poll returned by the future: Ready (the future completes)
or NotReady. -/
inductive PollRes where
  | ready
  | notReady
deriving DecidableEq

/-- Everything observable after one poll step. -/
structure PollResult where
  core : Core
  client : Client
  first_poll : Bool
  res : PollRes
deriving DecidableEq

/-- ClientFuture poll from src/client.rs lines 152-188: termination check
on the dead flag (with unlink), first-poll task registration, flush, read
(errors unlink and complete), then the message loop; none models the
panic inside unlink_client. -/
def poll (currentTask : Nat) (evsW : List WriteEv) (evsR : List ReadEv) (st : PollState) :
    Option PollResult :=
  if st.client.dead = true then
    match unlink_client st.core st.client with
    | none => none
    | some core2 => some ⟨core2, st.client, st.first_poll, PollRes.ready⟩
  else
    let client := if st.first_poll then { st.client with handler := currentTask } else st.client
    match try_flush evsW client with
    | none =>
      match unlink_client st.core client with
      | none => none
      | some core2 => some ⟨core2, client, false, PollRes.ready⟩
    | some (client2, _) =>
      match try_read evsR client2 with
      | TryReadRes.err client3 =>
        match unlink_client st.core client3 with
        | none => none
        | some core2 => some ⟨core2, client3, false, PollRes.ready⟩
      | TryReadRes.ok client3 _ =>
        let p := dispatchLoop client3.id st.core.clients.map client3.input
        some ⟨{ st.core with clients := { st.core.clients with map := p.2 } },
          { client3 with input := p.1 }, false, PollRes.notReady⟩

/-- cmd_nick from src/irc.rs lines 197-241.  The unbound identifier asdf
that the source assigns to the host field of the new User is modelled as
an explicit parameter; peer_addr of the socket and the DNS lookup are
parameters as well.  none models a panic: the index args[0] on an empty
argument vector, or unwrap on a None username or real_name in the
ProtoUser branch.  The resolved host is computed exactly where the source
computes it, and is then discarded exactly as the source discards it. -/
def cmd_nick (asdf : Host) (peer_addr : Option String) (resolve : String → Option String)
    (client : Client) (params : ParsedMsg) : Option Client :=
  match params.opt_params with
  | some args =>
    match args.head? with
    | none => none
    | some a0 =>
      match client.client_type with
      | ClientType.Unknown =>
        some (Client.send_line
          { client with client_type := ClientType.ProtoUser ⟨some a0, none, none⟩ }
          ("created a proto user thingy :o".toList))
      | ClientType.User u =>
        some { client with client_type := ClientType.User { u with nick := a0 } }
      | ClientType.ProtoUser pu =>
        match pu.username, pu.real_name with
        | some username, some real_name =>
          match peer_addr with
          | some address =>
            let _host : String :=
              match resolve address with
              | some hn => hn
              | none => address
            let newUser : User :=
              { id := client.id, nick := a0, username := username,
                real_name := real_name, host := asdf, channel_list := [],
                flags := { registered := true } }
            some { client with client_type := ClientType.User newUser }
          | none => some { client with dead := true }
        | _, _ => none
      | ClientType.Server _ => some client
  | none => some (client.send_line ("not enough parameters!".toList))

/-- handle_command from src/irc.rs lines 189-195: match on the raw command
string; the only arm is NICK and there is no catch-all arm, so every
other command string leaves the match non-exhaustive, modelled as none.
The core parameter is received and never used, exactly as in the
source. -/
def handle_command (asdf : Host) (peer_addr : Option String) (resolve : String → Option String)
    (core : Core) (client : Client) (params : ParsedMsg) : Option (Core × Client) :=
  if params.command = "NICK" then
    match cmd_nick asdf peer_addr resolve client params with
    | none => none
    | some c2 => some (core, c2)
  else none

/-- Concrete registered user for the claim C1 scenario. -/
def uC1 : User := ⟨7, "alice", "a", "Alice", Host.Hostname "ex.org", ["#chat"], ⟨true⟩⟩

/-- Concrete channel listing the C1 user as a member. -/
def chC1 : Channel := ⟨"#chat", [⟨"alice", ⟨false, false, false⟩⟩], ""⟩

/-- Concrete dead client for the claim C1 scenario. -/
def clC1 : Client := ⟨ClientType.User uC1, 7, ⟨[]⟩, ⟨[]⟩, 0, 0, true⟩

/-- Concrete registry holding references to client 7 in every table. -/
def coreC1 : Core := ⟨⟨[(7, clC1)], 8⟩, [("alice", 7)], [(7, uC1)], [("#chat", chC1)], [], []⟩

/-- Concrete poll state for the claim C1 scenario. -/
def stC1 : PollState := ⟨coreC1, clC1, false⟩

/-- Concrete client for claim C2 whose input holds one empty line. -/
def clC2a : Client := ⟨ClientType.Unknown, 0, ⟨['\r', '\n']⟩, ⟨[]⟩, 0, 0, false⟩

/-- Concrete second connected client for claim C2. -/
def clC2b : Client := ⟨ClientType.Unknown, 1, ⟨[]⟩, ⟨[]⟩, 0, 0, false⟩

/-- Concrete registry for claim C2 with the two clients. -/
def coreC2 : Core := ⟨⟨[(0, clC2a), (1, clC2b)], 2⟩, [], [], [], [], []⟩

/-- Concrete poll state for claim C2. -/
def stC2 : PollState := ⟨coreC2, clC2a, false⟩

/-- Concrete registered user alice (id 1) for claim C3. -/
def uC3alice : User := ⟨1, "alice", "a", "Alice", Host.Hostname "ex.org", [], ⟨true⟩⟩

/-- Concrete registered user bob (id 2) for claim C3. -/
def uC3bob : User := ⟨2, "bob", "b", "Bob", Host.Hostname "ex.org", [], ⟨true⟩⟩

/-- Concrete client of user bob for claim C3. -/
def clC3 : Client := ⟨ClientType.User uC3bob, 2, ⟨[]⟩, ⟨[]⟩, 0, 0, false⟩

/-- Concrete registry for claim C3 in which the nick alice maps to user 1. -/
def coreC3 : Core := ⟨⟨[], 3⟩, [("alice", 1)], [(1, uC3alice)], [], [], []⟩

/-- Concrete client for claim C5 with five buffered output bytes. -/
def clC5 : Client := ⟨ClientType.Unknown, 4, ⟨[]⟩, ⟨['a', 'b', 'c', 'd', 'e']⟩, 0, 0, false⟩

/-- Concrete client for claim C5 after a partial write of two bytes. -/
def clC5b : Client := ⟨ClientType.Unknown, 4, ⟨[]⟩, ⟨['c', 'd', 'e']⟩, 0, 0, false⟩

/-- Concrete sender for claim C6. -/
def clC6a : Client := ⟨ClientType.Unknown, 0, ⟨[]⟩, ⟨[]⟩, 0, 0, false⟩

/-- Concrete receiver for claim C6. -/
def clC6b : Client := ⟨ClientType.Unknown, 1, ⟨[]⟩, ⟨[]⟩, 0, 0, false⟩

/-- Concrete live client for claim C7. -/
def clC7 : Client := ⟨ClientType.Unknown, 3, ⟨[]⟩, ⟨[]⟩, 0, 0, false⟩

/-- Concrete registry for claim C7. -/
def coreC7 : Core := ⟨⟨[(3, clC7)], 4⟩, [], [], [], [], []⟩

/-- Concrete poll state for claim C7. -/
def stC7 : PollState := ⟨coreC7, clC7, false⟩

/-- Concrete client for claim C8. -/
def clC8 : Client := ⟨ClientType.Unknown, 6, ⟨[]⟩, ⟨[]⟩, 0, 0, false⟩

/-- Concrete registry for claim C8. -/
def coreC8 : Core := ⟨⟨[(6, clC8)], 7⟩, [], [], [], [], []⟩

/-- Concrete proto-user client for claim C9 with username and real name
already stored. -/
def clC9 : Client :=
  ⟨ClientType.ProtoUser ⟨none, some "a", some "Alice"⟩, 5, ⟨[]⟩, ⟨[]⟩, 0, 0, false⟩

/-- Concrete empty registry for claim C9. -/
def coreC9 : Core := ⟨⟨[(5, clC9)], 6⟩, [], [], [], [], []⟩

/-- Concrete client for claim C10 whose output buffer is one byte short of
the capacity, so that any appended line overflows. -/
def clC10 : Client := ⟨ClientType.Unknown, 8, ⟨[]⟩, ⟨List.replicate 511 'a'⟩, 0, 0, false⟩

/-- Helper: removing the first line and its CR-LF shrinks the buffered
bytes by at least two. -/
theorem splitCRLF_len : ∀ l : List Char, hasDelim l = true → (splitCRLF l).2.length + 2 ≤ l.length := by
  intro l
  induction l with
  | nil => intro hx; simp [hasDelim] at hx
  | cons a rest ih =>
    cases rest with
    | nil => intro hx; simp [hasDelim] at hx
    | cons b rest2 =>
      intro hx
      by_cases hc : a = '\r' ∧ b = '\n'
      · simp [splitCRLF, hc]
      · have h2 : hasDelim (b :: rest2) = true := by
          simpa [hasDelim, hc] using hx
        have h3 := ih h2
        simp only [splitCRLF, if_neg hc]
        simp only [List.length_cons] at h3 ⊢
        omega

/-- Helper: the effect of send_line when the line fits into the output
buffer. -/
theorem send_line_fits (c : Client) (buf : List Char)
    (h : c.output.data.length + (buf.length + 2) ≤ MAX_MSG_SIZE) :
    c.send_line buf = { c with notifications := c.notifications + 1, output := ⟨c.output.data ++ (buf ++ ['\r', '\n'])⟩ } := by
  have hx : ¬ (MAX_MSG_SIZE < c.output.data.length + (buf.length + 2)) := by omega
  simp [Client.send_line, MessageBuffer.append_str, MessageBuffer.append_bytes, hx]

/-- Helper: the effect of send_line when the line overflows the output
buffer. -/
theorem send_line_overflow (c : Client) (buf : List Char)
    (h : MAX_MSG_SIZE < c.output.data.length + (buf.length + 2)) :
    c.send_line buf = { c with notifications := c.notifications + 1, dead := true } := by
  simp [Client.send_line, MessageBuffer.append_str, MessageBuffer.append_bytes, h]

/-- Helper: flushing against no socket events writes nothing and leaves
the client unchanged. -/
theorem try_flush_nil (c : Client) : try_flush [] c = some (c, 0) := rfl

/-- Helper: unlink_client succeeds exactly on a present client id and
filters only the clients table. -/
theorem unlink_client_of_mem (core : Core) (c : Client)
    (h : (core.clients.map.lookup c.id).isSome = true) :
    unlink_client core c = some { core with clients :=
      { core.clients with map := core.clients.map.filter (fun p => p.1 != c.id) } } := by
  unfold unlink_client
  cases hl : core.clients.map.lookup c.id with
  | none => rw [hl] at h; simp at h
  | some v => simp

/-- Helper: with sufficient fuel the message loop equals a fold of
broadcast over the extracted lines. -/
theorem dispatchLoopF_fold : ∀ (fuel : Nat) (data : List Char), data.length ≤ fuel →
    ∀ (selfId : Nat) (map : List (Nat × Client)),
      dispatchLoopF fuel selfId map ⟨data⟩ =
        (⟨(extractLines data).2⟩,
          ((extractLines data).1).foldl (fun m l => broadcast selfId m l) map) := by
  intro fuel
  induction fuel with
  | zero =>
    intro data hlen selfId map
    have hdata : data = [] := by
      cases data with
      | nil => rfl
      | cons a t => simp at hlen
    subst hdata
    rw [extractLines]
    simp [dispatchLoopF, hasDelim]
  | succ n ih =>
    intro data hlen selfId map
    by_cases hd : hasDelim data = true
    · rw [extractLines]
      simp only [dispatchLoopF, MessageBuffer.has_delim, hd, dif_pos, if_pos,
        MessageBuffer.extract_ln]
      have hrest : (splitCRLF data).2.length ≤ n := by
        have := splitCRLF_len data hd
        omega
      rw [ih _ hrest]
      simp
    · rw [extractLines]
      simp [dispatchLoopF, MessageBuffer.has_delim, hd]

/-- Helper: the leftover after extracting every line has no delimiter. -/
theorem extractLines_no_delim : ∀ (fuel : Nat) (data : List Char), data.length ≤ fuel →
    hasDelim (extractLines data).2 = false := by
  intro fuel
  induction fuel with
  | zero =>
    intro data hlen
    have hdata : data = [] := by
      cases data with
      | nil => rfl
      | cons a t => simp at hlen
    subst hdata
    rw [extractLines]
    simp [hasDelim]
  | succ n ih =>
    intro data hlen
    by_cases hd : hasDelim data = true
    · rw [extractLines]
      simp only [hd, dif_pos]
      refine ih _ ?_
      have := splitCRLF_len data hd
      omega
    · rw [extractLines]
      simp only [hd, dif_neg, Bool.not_eq_true]

/-- Claim C4 (confirmed): for every line and every client, send_line
appends exactly the line followed by CR-LF to the output buffer and
notifies the wake handle; if the append would overflow the buffer the
output is left unchanged and the client is marked dead instead. -/
theorem send_line_appends_crlf (c : Client) (buf : List Char) :
    (c.send_line buf).notifications = c.notifications + 1 ∧
    (if c.output.data.length + (buf.length + 2) ≤ MAX_MSG_SIZE
      then (c.send_line buf).output.data = c.output.data ++ (buf ++ ['\r', '\n']) ∧
        (c.send_line buf).dead = c.dead
      else (c.send_line buf).output.data = c.output.data ∧ (c.send_line buf).dead = true) := by
  by_cases h : c.output.data.length + (buf.length + 2) ≤ MAX_MSG_SIZE
  · rw [send_line_fits c buf h]
    simp [h]
  · have h2 : MAX_MSG_SIZE < c.output.data.length + (buf.length + 2) := by omega
    rw [send_line_overflow c buf h2]
    simp [h]

/-- Claim C10 (confirmed): every call of send_line notifies the wake
handle exactly once, unconditionally; in particular the notification also
happens when the append overflows and the client is marked dead, so a
client killed by output overflow is still woken for teardown. -/
theorem send_line_always_notifies (c : Client) (buf : List Char) :
    (c.send_line buf).notifications = c.notifications + 1 ∧
    (MAX_MSG_SIZE < c.output.data.length + (buf.length + 2) →
      (c.send_line buf).dead = true ∧
        (c.send_line buf).notifications = c.notifications + 1) := by
  constructor
  · by_cases h : c.output.data.length + (buf.length + 2) ≤ MAX_MSG_SIZE
    · rw [send_line_fits c buf h]
    · rw [send_line_overflow c buf (by omega)]
  · intro h
    rw [send_line_overflow c buf h]
    exact ⟨rfl, rfl⟩

/-- Witness for send_line_always_notifies at a client whose output buffer
overflows on any append. -/
theorem send_line_always_notifies_witness :
    (clC10.send_line []).dead = true ∧
      (clC10.send_line []).notifications = clC10.notifications + 1 :=
  (send_line_always_notifies clC10 []).2 (by norm_num [clC10, MAX_MSG_SIZE])

/-- Claim C6 (confirmed): a broadcast excludes the sender by id: every
entry of the map with the senders id is kept unchanged (the sender
receives nothing), and every entry with a different id has send_line
applied, which under a fitting append means the line plus CR-LF lands at
the end of that entrys output buffer. -/
theorem broadcast_excludes_sender (selfId : Nat) (map : List (Nat × Client)) (msg : List Char) :
    (∀ c : Client, (selfId, c) ∈ map → (selfId, c) ∈ broadcast selfId map msg) ∧
    (∀ (i : Nat) (c : Client), (i, c) ∈ map → i ≠ selfId →
      (i, c.send_line msg) ∈ broadcast selfId map msg) ∧
    (∀ (i : Nat) (c : Client), (i, c) ∈ map → i ≠ selfId →
      c.output.data.length + (msg.length + 2) ≤ MAX_MSG_SIZE →
      (i, { c with notifications := c.notifications + 1, output := ⟨c.output.data ++ (msg ++ ['\r', '\n'])⟩ }) ∈ broadcast selfId map msg) := by
  refine ⟨?_, ?_, ?_⟩
  · intro c hm
    have h1 := List.mem_map_of_mem
      (fun p : Nat × Client => if p.1 = selfId then p else (p.1, p.2.send_line msg)) hm
    simpa [broadcast] using h1
  · intro i c hm hne
    have h1 := List.mem_map_of_mem
      (fun p : Nat × Client => if p.1 = selfId then p else (p.1, p.2.send_line msg)) hm
    simpa [broadcast, hne] using h1
  · intro i c hm hne hfit
    have h1 := List.mem_map_of_mem
      (fun p : Nat × Client => if p.1 = selfId then p else (p.1, p.2.send_line msg)) hm
    rw [show ((fun p : Nat × Client => if p.1 = selfId then p else (p.1, p.2.send_line msg)) (i, c)) = (i, c.send_line msg) by simp [hne]] at h1
    rw [send_line_fits c msg hfit] at h1
    simpa [broadcast] using h1

/-- Witness for broadcast_excludes_sender on a concrete two-client map:
the non-sender receives the line with CR-LF appended, the sender entry is
unchanged. -/
theorem broadcast_excludes_sender_witness :
    (1, { clC6b with notifications := clC6b.notifications + 1, output := ⟨clC6b.output.data ++ (['h', 'i'] ++ ['\r', '\n'])⟩ }) ∈ broadcast 0 [(0, clC6a), (1, clC6b)] ['h', 'i'] ∧
    (0, clC6a) ∈ broadcast 0 [(0, clC6a), (1, clC6b)] ['h', 'i'] :=
  ⟨(broadcast_excludes_sender 0 [(0, clC6a), (1, clC6b)] ['h', 'i']).2.2 1 clC6b
      (by decide) (by decide) (by decide),
    (broadcast_excludes_sender 0 [(0, clC6a), (1, clC6b)] ['h', 'i']).1 clC6a (by decide)⟩

/-- Claim C5 (confirmed): the flush stage writes until NotReady or
everything is written; when the socket accepted k bytes of a buffer that
respects the capacity invariant, exactly the remaining bytes stay in the
output buffer, shifted to the start, and a full write resets the index to
zero. -/
theorem try_flush_partial_write (evs : List WriteEv) (c c2 : Client) (k : Nat)
    (hcap : c.output.data.length ≤ MAX_MSG_SIZE)
    (h : try_flush evs c = some (c2, k)) :
    (k < c.output.data.length →
      c2.output.data = c.output.data.drop k ∧ c2.output.index = c.output.data.length - k) ∧
    (k = c.output.data.length → c2.output.index = 0) := by
  have hlen : (c.output.copy).length = c.output.data.length := by
    simp only [MessageBuffer.copy, List.length_take]
    omega
  simp only [try_flush, hlen] at h
  cases hf : flushLoop evs c.output.data.length 0 with
  | none => rw [hf] at h; simp at h
  | some wc =>
    rw [hf] at h
    dsimp only at h
    by_cases hw : wc > 0
    · rw [if_pos hw] at h
      by_cases hi : wc = c.output.index
      · rw [if_pos hi] at h
        simp only [Option.some.injEq, Prod.mk.injEq] at h
        obtain ⟨hc2, hk⟩ := h
        simp only [MessageBuffer.index] at hi
        constructor
        · intro hklt
          omega
        · intro _
          rw [← hc2]
          simp [MessageBuffer.index]
      · rw [if_neg hi] at h
        simp only [Option.some.injEq, Prod.mk.injEq] at h
        obtain ⟨hc2, hk⟩ := h
        simp only [MessageBuffer.index] at hi
        constructor
        · intro _
          rw [← hc2]
          subst hk
          simp [MessageBuffer.shift_bytes_to_start, MessageBuffer.index]
        · intro hkeq
          omega
    · rw [if_neg hw] at h
      simp only [Option.some.injEq, Prod.mk.injEq] at h
      obtain ⟨hc2, hk⟩ := h
      have hw0 : wc = 0 := by omega
      subst hw0
      constructor
      · intro _
        rw [← hc2, ← hk]
        simp [MessageBuffer.index]
      · intro hkeq
        rw [← hc2]
        simp only [MessageBuffer.index]
        omega

/-- Witness for try_flush_partial_write: a five-byte output buffer against
a socket that accepts two bytes and then reports NotReady keeps exactly
the last three bytes, shifted to the start. -/
theorem try_flush_partial_write_witness :
    clC5b.output.data = clC5.output.data.drop 2 ∧
      clC5b.output.index = clC5.output.data.length - 2 :=
  (try_flush_partial_write [WriteEv.ready 2, WriteEv.notReady] clC5 clC5b 2
    (by decide) (by decide)).1 (by decide)

/-- Claim C1 counterexample: a dead client that is referenced by the
nicks, users and channels tables is torn down (the poll returns Ready and
the clients table entry is removed), yet the nicks entry mapping its nick
to its id and its users entry both survive, contradicting the claim that
no reference to the client remains in any registry table. -/
theorem teardown_leaves_nicks_cex :
    poll 0 [] [] stC1 =
      some ⟨⟨⟨[], 8⟩, [("alice", 7)], [(7, uC1)], [("#chat", chC1)], [], []⟩,
        clC1, false, PollRes.ready⟩ := by
  decide

/-- Claim C1 (amended): when a poll observes the dead flag, the client id
is removed from the clients table and the future completes with Ready;
the nicks, users, channels, servers and commands tables are left exactly
as they were (the source removes the client from no table but clients). -/
theorem teardown_removes_only_clients (t : Nat) (evsW : List WriteEv) (evsR : List ReadEv)
    (st : PollState) (hdead : st.client.dead = true)
    (hmem : (st.core.clients.map.lookup st.client.id).isSome = true) :
    poll t evsW evsR st = some ⟨{ st.core with clients :=
        { st.core.clients with map := st.core.clients.map.filter (fun p => p.1 != st.client.id) } }, st.client, st.first_poll, PollRes.ready⟩ := by
  unfold poll
  rw [if_pos hdead, unlink_client_of_mem st.core st.client hmem]

/-- Witness for teardown_removes_only_clients at the concrete C1 state. -/
theorem teardown_removes_only_clients_witness :
    poll 0 [] [] stC1 = some ⟨{ coreC1 with clients :=
        { coreC1.clients with map := coreC1.clients.map.filter (fun p => p.1 != clC1.id) } }, clC1, false, PollRes.ready⟩ :=
  teardown_removes_only_clients 0 [] [] stC1 (by decide) (by decide)

/-- Helper: a poll on a live client with no write events whose try_read
returns Err unlinks the client and completes, leaving the client record
itself untouched. -/
theorem poll_read_err (t : Nat) (evsR : List ReadEv) (st : PollState)
    (hdead : st.client.dead = false) (hfp : st.first_poll = false)
    (hmem : (st.core.clients.map.lookup st.client.id).isSome = true)
    (herr : try_read evsR st.client = TryReadRes.err st.client) :
    poll t [] evsR st = some ⟨{ st.core with clients :=
        { st.core.clients with map := st.core.clients.map.filter (fun p => p.1 != st.client.id) } }, st.client, false, PollRes.ready⟩ := by
  unfold poll
  rw [if_neg (by simp [hdead])]
  rw [show (if st.first_poll then { st.client with handler := t } else st.client) = st.client by
    simp [hfp]]
  dsimp only
  rw [try_flush_nil st.client]
  dsimp only
  rw [herr]
  dsimp only
  rw [unlink_client_of_mem st.core st.client hmem]

/-- Claim C7 counterexample: a live client (dead flag false) whose socket
reports EOF is torn down in the same poll (Ready is returned and the
clients table entry is removed), but its dead flag is never set: the
result still carries dead = false, contradicting the claim that EOF marks
the client dead. -/
theorem read_eof_no_dead_flag_cex :
    poll 0 [] [ReadEv.ready []] stC7 =
      some ⟨⟨⟨[], 4⟩, [], [], [], [], []⟩, clC7, false, PollRes.ready⟩ := by
  decide

/-- Claim C7 (amended): in the read stage, non-blocking reads are issued
until NotReady or the scratch fills; a zero-byte read (EOF) and a socket
error each cause try_read to return Err, whereupon the poll unlinks the
client from the clients table and completes, all without setting the dead
flag (the other tables are untouched); successfully read bytes are
appended to the input buffer, and an overflow of that append likewise
propagates as Err into the same teardown without setting the dead
flag. -/
theorem read_errors_teardown_without_dead_flag (t : Nat) (evsR : List ReadEv) (st : PollState)
    (hdead : st.client.dead = false) (hfp : st.first_poll = false)
    (hmem : (st.core.clients.map.lookup st.client.id).isSome = true) :
    ((readLoop evsR [] = ReadRes.eof ∨ readLoop evsR [] = ReadRes.sockErr) →
      poll t [] evsR st = some ⟨{ st.core with clients :=
        { st.core.clients with map := st.core.clients.map.filter (fun p => p.1 != st.client.id) } }, st.client, false, PollRes.ready⟩) ∧
    (∀ bytes : List Char, readLoop evsR [] = ReadRes.ok bytes → 0 < bytes.length →
      MAX_MSG_SIZE < st.client.input.data.length + bytes.length →
      poll t [] evsR st = some ⟨{ st.core with clients :=
        { st.core.clients with map := st.core.clients.map.filter (fun p => p.1 != st.client.id) } }, st.client, false, PollRes.ready⟩) ∧
    (∀ bytes : List Char, readLoop evsR [] = ReadRes.ok bytes → 0 < bytes.length →
      st.client.input.data.length + bytes.length ≤ MAX_MSG_SIZE →
      try_read evsR st.client = TryReadRes.ok
        { st.client with input := ⟨st.client.input.data ++ bytes⟩ } bytes.length) := by
  refine ⟨?_, ?_, ?_⟩
  · intro hre
    refine poll_read_err t evsR st hdead hfp hmem ?_
    unfold try_read
    rcases hre with hre | hre
    · rw [hre]
    · rw [hre]
  · intro bytes hok hpos hover
    refine poll_read_err t evsR st hdead hfp hmem ?_
    unfold try_read
    rw [hok]
    dsimp only
    rw [if_pos hpos]
    rw [show st.client.input.append_bytes bytes = none by
      simp [MessageBuffer.append_bytes]
      omega]
  · intro bytes hok hpos hfit
    unfold try_read
    rw [hok]
    dsimp only
    rw [if_pos hpos]
    rw [show st.client.input.append_bytes bytes = some ⟨st.client.input.data ++ bytes⟩ by
      simp [MessageBuffer.append_bytes]
      omega]

/-- Witness for read_errors_teardown_without_dead_flag at the concrete C7
state against a socket reporting EOF. -/
theorem read_errors_teardown_without_dead_flag_witness :
    poll 0 [] [ReadEv.ready []] stC7 = some ⟨{ coreC7 with clients :=
        { coreC7.clients with map := coreC7.clients.map.filter (fun p => p.1 != clC7.id) } }, clC7, false, PollRes.ready⟩ :=
  (read_errors_teardown_without_dead_flag 0 [ReadEv.ready []] stC7
    (by decide) (by decide) (by decide)).1 (Or.inl (by decide))

/-- Claim C2 counterexample: a poll step on a client whose input holds one
empty line (a bare CR-LF) does not drop the line: it is broadcast, so the
other connected client receives a bare CR-LF appended to its output (and
its wake counter advances), while nothing is ever handed to
handle_command and no parse-error numeric reply is produced anywhere. -/
theorem dispatch_broadcasts_empty_line_cex :
    poll 0 [] [] stC2 =
      some ⟨⟨⟨[(0, clC2a), (1, { clC2b with notifications := 1, output := ⟨['\r', '\n']⟩ })], 2⟩, [], [], [], [], []⟩,
        { clC2a with input := ⟨[]⟩ }, false, PollRes.notReady⟩ := by
  decide

/-- Claim C2 (amended): the dispatch stage of a poll step extracts lines
while the input buffer holds a CR-LF, but hands none of them to any
command dispatcher: every extracted line, empty lines included, is
broadcast verbatim (send_line re-appends CR-LF) to every other client in
the clients table, and no parse error or numeric reply can arise; the
loop ends with a delimiter-free input leftover.  Formally the loop equals
a fold of broadcast over the extracted lines. -/
theorem dispatch_is_raw_broadcast (selfId : Nat) (map : List (Nat × Client)) (data : List Char) :
    dispatchLoop selfId map ⟨data⟩ =
      (⟨(extractLines data).2⟩,
        ((extractLines data).1).foldl (fun m l => broadcast selfId m l) map) ∧
    hasDelim (extractLines data).2 = false :=
  ⟨dispatchLoopF_fold data.length data le_rfl selfId map,
    extractLines_no_delim data.length data le_rfl⟩

/-- Claim C3 counterexample: with the nicks table mapping alice to user 1,
the registered user bob (client 2) issues NICK alice; the handler renames
bob to alice, sends nothing (output stays empty, so no 433 numeric reply
reaches the requester), and leaves the tables untouched — after which the
registered users 1 and 2 share the canonical nick alice, contradicting
both the uniqueness invariant and the ERR_NICKNAMEINUSE behaviour. -/
theorem nick_in_use_no_433_cex :
    handle_command (Host.Hostname "srv") none (fun _ => none) coreC3 clC3
        ⟨"NICK", some ["alice"]⟩ =
      some (coreC3, { clC3 with client_type := ClientType.User { uC3bob with nick := "alice" } }) := by
  decide

/-- Claim C3 (amended): cmd_nick performs no uniqueness check at all: for
a registered user a NICK with an argument unconditionally overwrites the
nick with that argument, appends nothing to the requester output (in
particular no 433 reply) and never reads or writes the nicks table (the
core is returned unchanged), so two distinct registered users can come to
share a canonical nick. -/
theorem cmd_nick_no_uniqueness_check (asdf : Host) (pa : Option String)
    (resolve : String → Option String) (core : Core) (client : Client) (u : User)
    (n : String) (rest : List String) (hu : client.client_type = ClientType.User u) :
    handle_command asdf pa resolve core client ⟨"NICK", some (n :: rest)⟩ =
      some (core, { client with client_type := ClientType.User { u with nick := n } }) := by
  simp [handle_command, cmd_nick, hu]

/-- Witness for cmd_nick_no_uniqueness_check: bob renames to eve with no
reply and an unchanged registry. -/
theorem cmd_nick_no_uniqueness_check_witness :
    handle_command (Host.Hostname "srv") none (fun _ => none) coreC3 clC3
        ⟨"NICK", some ["eve"]⟩ =
      some (coreC3, { clC3 with client_type := ClientType.User { uC3bob with nick := "eve" } }) :=
  cmd_nick_no_uniqueness_check (Host.Hostname "srv") none (fun _ => none) coreC3 clC3
    uC3bob "eve" [] (by decide)

/-- Claim C8 (code_bug evaluation): the dispatcher matches the raw command
string without upper-casing and has no arm for unrecognised commands: a
lower-case nick command and an unimplemented PING command both fall into
the non-exhaustive match (modelled as none) — no handler runs and no
ERR_UNKNOWNCOMMAND numeric 421 is produced, although the comment above
handle_command in the source documents upper-casing before the match. -/
theorem handle_command_lowercase_stuck :
    handle_command (Host.Hostname "srv") none (fun _ => none) coreC8 clC8
        ⟨"nick", some ["alice"]⟩ = none ∧
    handle_command (Host.Hostname "srv") none (fun _ => none) coreC8 clC8
        ⟨"PING", some []⟩ = none := by
  exact ⟨by decide, by decide⟩

/-- Claim C9 counterexample: a ProtoUser client with username and
real name present issues NICK alice; the client transitions to User with
id 5, but the users and nicks tables of the core remain empty (the
handler never receives the core), and the host field carries the unbound
placeholder of the source rather than the resolved hostname, although the
resolver returned one — contradicting the claimed insertion into users
and nicks. -/
theorem register_no_table_insert_cex :
    handle_command (Host.Hostname "srv") (some "10.1.2.3") (fun _ => some "client.example.org")
        coreC9 clC9 ⟨"NICK", some ["alice"]⟩ =
      some (coreC9,
        { clC9 with client_type := ClientType.User ⟨5, "alice", "a", "Alice", Host.Hostname "srv", [], ⟨true⟩⟩ }) := by
  decide

/-- Claim C9 (amended): for a ProtoUser client, NICK with an argument
transitions the client to User with id equal to the client id when
username and real name are present, but inserts nothing into the users or
nicks tables (the core is returned unchanged; the host field receives the
unfinished placeholder expression of the source, not the resolved name);
and when the username is absent the handler panics on unwrap (modelled as
none) instead of merely updating the stored proto nick. -/
theorem proto_nick_register_no_insert (asdf : Host) (pa : Option String)
    (resolve : String → Option String) (core : Core) (client : Client) (pu : ProtoUser)
    (n : String) (rest : List String)
    (hp : client.client_type = ClientType.ProtoUser pu) :
    (∀ un rn addr, pu.username = some un → pu.real_name = some rn →
      handle_command asdf (some addr) resolve core client ⟨"NICK", some (n :: rest)⟩ =
        some (core,
          { client with client_type := ClientType.User ⟨client.id, n, un, rn, asdf, [], ⟨true⟩⟩ })) ∧
    (pu.username = none →
      cmd_nick asdf pa resolve client ⟨"NICK", some (n :: rest)⟩ = none) := by
  constructor
  · intro un rn addr hun hrn
    simp [handle_command, cmd_nick, hp, hun, hrn]
  · intro hun
    simp [cmd_nick, hp, hun]

/-- Witness for proto_nick_register_no_insert at the concrete C9 client. -/
theorem proto_nick_register_no_insert_witness :
    handle_command (Host.Hostname "srv") (some "10.9.9.9") (fun _ => none) coreC9 clC9
        ⟨"NICK", some ["zoe"]⟩ =
      some (coreC9,
        { clC9 with client_type := ClientType.User ⟨clC9.id, "zoe", "a", "Alice", Host.Hostname "srv", [], ⟨true⟩⟩ }) :=
  (proto_nick_register_no_insert (Host.Hostname "srv") (some "10.9.9.9") (fun _ => none)
    coreC9 clC9 ⟨none, some "a", some "Alice"⟩ "zoe" [] (by decide)).1
    "a" "Alice" "10.9.9.9" (by decide) (by decide)

end IrcDaemon
